import Mathlib

/-!
Verification development for the RevSplit commission service of the
CoLink Commerce platform. The definitions below are a shallow embedding of
the TypeScript class CommissionService: the database is modelled as an
explicit list of rows, Prisma Decimal values as rationals, timestamps as
integers, and each call of the ambient clock as one reading of an explicit
clock oracle passed to the operation.
-/

namespace RevSplit

/-- Commission rule priority types (enum CommissionRuleType). -/
inductive CommissionRuleType where
  | CAMPAIGN
  | SKU
  | PRODUCT
  | DEFAULT
deriving DecidableEq, Repr

/-- Ledger entry types (enum LedgerEntryType). -/
inductive LedgerEntryType where
  | SALE
  | COMMISSION
  | PLATFORM_FEE
  | PAYMENT_FEE
  | PAYOUT
  | REFUND
  | ADJUSTMENT
deriving DecidableEq, Repr

/-- Ledger entry status (enum LedgerEntryStatus). -/
inductive LedgerEntryStatus where
  | RESERVED
  | CLEARED
  | PAID
  | CANCELLED
deriving DecidableEq, Repr

/-- Errors thrown by the service (NotFoundError, ValidationError,
InternalServerError from utils/errors), carrying message and error code. -/
inductive ServiceError where
  | notFound (message code : String)
  | validation (message code : String)
  | internal (message code : String)
deriving DecidableEq, Repr

/-- A CommissionRule row. Nullable columns are Option; Decimal columns are
rationals; dates are integer timestamps. -/
structure CommissionRule where
  id : String
  organizationId : String
  type : CommissionRuleType
  campaignId : Option String := none
  skuId : Option String := none
  productId : Option String := none
  creatorPercent : ℚ
  platformFeePercent : ℚ
  minCommission : Option ℚ := none
  maxCommission : Option ℚ := none
  isActive : Bool
  startDate : Int
  endDate : Int
deriving DecidableEq, Repr

/-- An Order row (the fields the service reads). -/
structure Order where
  id : String
  organizationId : String
  currency : String
deriving DecidableEq, Repr

/-- The orderItem argument of the service methods: an OrderItem together
with its included order and the productId of its sku. -/
structure OrderItemInput where
  id : String
  skuId : String
  subtotal : ℚ
  order : Order
  productId : String
deriving DecidableEq, Repr

/-- Commission calculation result (interface CommissionCalculation). -/
structure CommissionCalculation where
  orderItemId : String
  subtotal : ℚ
  platformFee : ℚ
  creatorCommission : ℚ
  paymentFee : ℚ
  sellerTake : ℚ
  currency : String
  appliedRuleId : String
  appliedRuleType : CommissionRuleType
deriving DecidableEq, Repr

/-- Shared part of every tier predicate in findApplicableCommissionRule:
organization match, isActive, and validity window containing now. -/
def ruleWindowMatches (organizationId : String) (now : Int) (r : CommissionRule) : Bool :=
  r.organizationId == organizationId && r.isActive
    && decide (r.startDate ≤ now) && decide (now ≤ r.endDate)

/-- The where clause of the campaign-tier findFirst query. -/
def campaignRuleMatches (organizationId campaignId : String) (now : Int)
    (r : CommissionRule) : Bool :=
  r.campaignId == some campaignId && r.type == CommissionRuleType.CAMPAIGN
    && ruleWindowMatches organizationId now r

/-- The where clause of the SKU-tier findFirst query. -/
def skuRuleMatches (organizationId skuId : String) (now : Int)
    (r : CommissionRule) : Bool :=
  r.skuId == some skuId && r.type == CommissionRuleType.SKU
    && ruleWindowMatches organizationId now r

/-- The where clause of the product-tier findFirst query. -/
def productRuleMatches (organizationId productId : String) (now : Int)
    (r : CommissionRule) : Bool :=
  r.productId == some productId && r.type == CommissionRuleType.PRODUCT
    && ruleWindowMatches organizationId now r

/-- The where clause of the default-tier findFirst query. -/
def defaultRuleMatches (organizationId : String) (now : Int)
    (r : CommissionRule) : Bool :=
  r.type == CommissionRuleType.DEFAULT && ruleWindowMatches organizationId now r

/-- CommissionService.findApplicableCommissionRule: tries the CAMPAIGN tier
(only when a campaignId is supplied), then SKU, then PRODUCT, then DEFAULT,
each as a findFirst over the rule table; throws NotFoundError when no tier
matches. -/
def findApplicableCommissionRule (rules : List CommissionRule)
    (orderItem : OrderItemInput) (campaignId : Option String) (now : Int) :
    Except ServiceError CommissionRule :=
  let organizationId := orderItem.order.organizationId
  let fromCampaign : Option CommissionRule :=
    match campaignId with
    | some cid => rules.find? (campaignRuleMatches organizationId cid now)
    | none => none
  match fromCampaign with
  | some r => .ok r
  | none =>
    match rules.find? (skuRuleMatches organizationId orderItem.skuId now) with
    | some r => .ok r
    | none =>
      match rules.find? (productRuleMatches organizationId orderItem.productId now) with
      | some r => .ok r
      | none =>
        match rules.find? (defaultRuleMatches organizationId now) with
        | some r => .ok r
        | none =>
          .error (.notFound "No applicable commission rule found" "COMMISSION_RULE_NOT_FOUND")

/-- platformFee = subtotal * rule.platformFeePercent / 100. -/
def platformFeeOf (rule : CommissionRule) (subtotal : ℚ) : ℚ :=
  subtotal * rule.platformFeePercent / 100

/-- The creator commission after the min and max caps of the rule: the raw
subtotal * rule.creatorPercent / 100, raised to minCommission when that is
set and the raw value is below it, then lowered to maxCommission when that
is set and the value is above it. -/
def clampedCommissionOf (rule : CommissionRule) (subtotal : ℚ) : ℚ :=
  let raw := subtotal * rule.creatorPercent / 100
  let low :=
    match rule.minCommission with
    | some m => if raw < m then m else raw
    | none => raw
  match rule.maxCommission with
  | some m => if low > m then m else low
  | none => low

/-- paymentFee = subtotal * paymentFeePercent (the percent is already a
fraction, default 0.029). -/
def paymentFeeOf (subtotal paymentFeePercent : ℚ) : ℚ :=
  subtotal * paymentFeePercent

/-- The seller take as first computed, before the negative check:
subtotal - platformFee - clamped creatorCommission - paymentFee. -/
def naiveSellerTakeOf (rule : CommissionRule) (subtotal paymentFeePercent : ℚ) : ℚ :=
  subtotal - platformFeeOf rule subtotal - clampedCommissionOf rule subtotal
    - paymentFeeOf subtotal paymentFeePercent

/-- The creator commission recomputed when the seller take is negative:
subtotal - platformFee - paymentFee, floored at 0. -/
def adjustedCommissionOf (rule : CommissionRule) (subtotal paymentFeePercent : ℚ) : ℚ :=
  let c := subtotal - platformFeeOf rule subtotal - paymentFeeOf subtotal paymentFeePercent
  if c < 0 then 0 else c

/-- The pure arithmetic of CommissionService.calculateCommission after the
rule has been found: fees, caps, the negative-seller-take adjustment of the
creator commission, and the final seller take floored at 0. -/
def computeSplit (rule : CommissionRule) (orderItem : OrderItemInput)
    (paymentFeePercent : ℚ) : CommissionCalculation :=
  let subtotal := orderItem.subtotal
  let sellerTake := naiveSellerTakeOf rule subtotal paymentFeePercent
  { orderItemId := orderItem.id
    subtotal := subtotal
    platformFee := platformFeeOf rule subtotal
    creatorCommission :=
      if sellerTake < 0 then adjustedCommissionOf rule subtotal paymentFeePercent
      else clampedCommissionOf rule subtotal
    paymentFee := paymentFeeOf subtotal paymentFeePercent
    sellerTake := if sellerTake < 0 then 0 else sellerTake
    currency := orderItem.order.currency
    appliedRuleId := rule.id
    appliedRuleType := rule.type }

/-- CommissionService.calculateCommission: find the applicable rule, then
compute the split; any lookup error is rethrown unchanged. -/
def calculateCommission (rules : List CommissionRule) (orderItem : OrderItemInput)
    (paymentFeePercent : ℚ) (campaignId : Option String) (now : Int) :
    Except ServiceError CommissionCalculation :=
  (findApplicableCommissionRule rules orderItem campaignId now).map
    (fun rule => computeSplit rule orderItem paymentFeePercent)

/-- The metadata JSON blob of a ledger entry, restricted to the keys the
service ever writes. The calculationId key holds the Date.now() reading
embedded in the calc_ string. -/
structure LedgerMetadata where
  calculationId : Option Int := none
  appliedRuleId : Option String := none
  appliedRuleType : Option CommissionRuleType := none
  creatorId : Option String := none
  cancellationReason : Option String := none
  cancelledAt : Option Int := none
deriving DecidableEq, Repr

/-- A LedgerEntry row. -/
structure LedgerEntry where
  id : String
  organizationId : String
  orderId : String
  orderItemId : Option String := none
  payoutId : Option String := none
  entryType : LedgerEntryType
  amount : ℚ
  currency : String
  description : String := ""
  status : LedgerEntryStatus
  createdAt : Int := 0
  clearedAt : Option Int := none
  paidAt : Option Int := none
  metadata : LedgerMetadata := {}
deriving DecidableEq, Repr

/-- One tx.ledgerEntry.create call inside createLedgerEntries: a fresh
RESERVED entry for the order item of the calculation, stamped with one
clock reading t used for createdAt and for the calculationId metadata. -/
def mkSplitEntry (organizationId orderId : String) (calculation : CommissionCalculation)
    (newId : String) (t : Int) (entryType : LedgerEntryType) (amount : ℚ)
    (description : String) (creatorId : Option String) : LedgerEntry :=
  { id := newId
    organizationId := organizationId
    orderId := orderId
    orderItemId := some calculation.orderItemId
    entryType := entryType
    amount := amount
    currency := calculation.currency
    description := description
    status := LedgerEntryStatus.RESERVED
    createdAt := t
    metadata :=
      { calculationId := some t
        appliedRuleId := some calculation.appliedRuleId
        appliedRuleType := some calculation.appliedRuleType
        creatorId := creatorId } }

/-- CommissionService.createLedgerEntries: inside one transaction, create
the SALE, PLATFORM_FEE, COMMISSION and PAYMENT_FEE entries of the split
(the COMMISSION entry carrying the creatorId in its metadata), append them
to the table in one step, and return them. The clock oracle supplies the
four Date.now() readings and freshId the four generated row ids. -/
def createLedgerEntries (clock : Nat → Int) (freshId : Nat → String)
    (db : List LedgerEntry) (calculation : CommissionCalculation) (order : Order)
    (creatorId : String) : List LedgerEntry × List LedgerEntry :=
  let saleEntry := mkSplitEntry order.organizationId order.id calculation
    (freshId 0) (clock 0) LedgerEntryType.SALE calculation.subtotal
    "Sale revenue" none
  let platformFeeEntry := mkSplitEntry order.organizationId order.id calculation
    (freshId 1) (clock 1) LedgerEntryType.PLATFORM_FEE calculation.platformFee
    "Platform fee" none
  let commissionEntry := mkSplitEntry order.organizationId order.id calculation
    (freshId 2) (clock 2) LedgerEntryType.COMMISSION calculation.creatorCommission
    "Creator commission" (some creatorId)
  let paymentFeeEntry := mkSplitEntry order.organizationId order.id calculation
    (freshId 3) (clock 3) LedgerEntryType.PAYMENT_FEE calculation.paymentFee
    "Payment processing fee" none
  (db ++ [saleEntry, platformFeeEntry, commissionEntry, paymentFeeEntry],
    [saleEntry, platformFeeEntry, commissionEntry, paymentFeeEntry])

/-- Apply a batch of update-by-id statements to the table: each row whose
id appears among the update keys is replaced by the update applied to it;
every other row is left unchanged. -/
def updateById (db : List LedgerEntry)
    (upds : List (String × (LedgerEntry → LedgerEntry))) : List LedgerEntry :=
  db.map fun e =>
    match upds.lookup e.id with
    | some f => f e
    | none => e

/-- The where clause of the clearLedgerEntries findMany: entries of the
order whose status is RESERVED. -/
def reservedFor (orderId : String) (e : LedgerEntry) : Bool :=
  e.orderId == orderId && e.status == LedgerEntryStatus.RESERVED

/-- The data block of one clearLedgerEntries update: status CLEARED and
clearedAt stamped with one clock reading. -/
def clearOne (t : Int) (e : LedgerEntry) : LedgerEntry :=
  { e with status := LedgerEntryStatus.CLEARED, clearedAt := some t }

/-- CommissionService.clearLedgerEntries: select the RESERVED entries of
the order; when none, return the table unchanged and an empty list;
otherwise update each selected entry to CLEARED. Each update evaluates its
own new Date(), modelled as clock i for the i-th selected entry. Returns
the new table and the updated entries. -/
def clearLedgerEntries (clock : Nat → Int) (db : List LedgerEntry)
    (orderId : String) : List LedgerEntry × List LedgerEntry :=
  let reservedEntries := db.filter (reservedFor orderId)
  if reservedEntries.isEmpty then (db, [])
  else
    let upds := reservedEntries.enum.map fun p => (p.2.id, clearOne (clock p.1))
    (updateById db upds, reservedEntries.enum.map fun p => clearOne (clock p.1) p.2)

/-- The where clause of the cancelLedgerEntries findMany: entries of the
order whose status is not CANCELLED (so RESERVED, CLEARED and PAID). -/
def activeFor (orderId : String) (e : LedgerEntry) : Bool :=
  e.orderId == orderId && e.status != LedgerEntryStatus.CANCELLED

/-- The data block of one cancelLedgerEntries update: status CANCELLED and
the cancellation reason and time merged into the existing metadata. -/
def cancelOne (reason : String) (t : Int) (e : LedgerEntry) : LedgerEntry :=
  { e with status := LedgerEntryStatus.CANCELLED
           metadata := { e.metadata with
                           cancellationReason := some reason
                           cancelledAt := some t } }

/-- CommissionService.cancelLedgerEntries: select the non-CANCELLED entries
of the order; when none, return the table unchanged and an empty list;
otherwise update each selected entry to CANCELLED, each update taking its
own clock reading for the cancelledAt metadata. -/
def cancelLedgerEntries (clock : Nat → Int) (db : List LedgerEntry)
    (orderId reason : String) : List LedgerEntry × List LedgerEntry :=
  let activeEntries := db.filter (activeFor orderId)
  if activeEntries.isEmpty then (db, [])
  else
    let upds := activeEntries.enum.map fun p => (p.2.id, cancelOne reason (clock p.1))
    (updateById db upds,
      activeEntries.enum.map fun p => cancelOne reason (clock p.1) p.2)

/-- The data block of one markCommissionsAsPaid update: status PAID, the
payout linkage, and paidAt stamped with one clock reading. -/
def markPaidOne (payoutId : String) (t : Int) (e : LedgerEntry) : LedgerEntry :=
  { e with status := LedgerEntryStatus.PAID
           payoutId := some payoutId
           paidAt := some t }

/-- CommissionService.markCommissionsAsPaid: update every listed entry to
PAID with the payout id, inside one transaction. A Prisma update throws
when its id matches no row, rolling back the transaction and surfacing an
InternalServerError; when every id exists the updates are applied
unconditionally, whatever the current status of each entry. Returns the
new table and the updated entries. -/
def markCommissionsAsPaid (clock : Nat → Int) (db : List LedgerEntry)
    (commissionIds : List String) (payoutId : String) :
    Except ServiceError (List LedgerEntry × List LedgerEntry) :=
  if commissionIds.all (fun i => db.any (fun e => e.id == i)) then
    let upds := commissionIds.enum.map fun p => (p.2, markPaidOne payoutId (clock p.1))
    let paidEntries := commissionIds.enum.filterMap fun p =>
      (db.find? (fun e => e.id == p.2)).map (markPaidOne payoutId (clock p.1))
    .ok (updateById db upds, paidEntries)
  else
    .error (.internal "Failed to mark commissions as paid" "COMMISSION_PAYMENT_UPDATE_FAILED")

/-- Reconciliation outcome tag. -/
inductive ReconciliationStatus where
  | BALANCED
  | DISCREPANCY
deriving DecidableEq, Repr

/-- The record returned by reconcileCommissions. -/
structure ReconciliationResult where
  totalCommissions : ℚ
  totalPaid : ℚ
  totalPending : ℚ
  reconciliationStatus : ReconciliationStatus
  discrepancyAmount : Option ℚ := none
deriving DecidableEq, Repr

/-- The where clause of the reconcileCommissions findMany: COMMISSION
entries of the organization with createdAt inside the closed range. No
status condition appears: entries of every status are selected. -/
def commissionInRange (organizationId : String) (startDate endDate : Int)
    (e : LedgerEntry) : Bool :=
  e.organizationId == organizationId && e.entryType == LedgerEntryType.COMMISSION
    && decide (startDate ≤ e.createdAt) && decide (e.createdAt ≤ endDate)

/-- The reduce over entry amounts used by the service: fold add from 0. -/
def sumAmounts (l : List LedgerEntry) : ℚ :=
  l.foldl (fun sum e => sum + e.amount) 0

/-- CommissionService.reconcileCommissions: fetch the COMMISSION entries of
the organization in range, total all of them, total the PAID subset and
the RESERVED-or-CLEARED subset, and report BALANCED exactly when the grand
total equals paid plus pending, otherwise DISCREPANCY with the signed
difference. -/
def reconcileCommissions (db : List LedgerEntry) (organizationId : String)
    (startDate endDate : Int) : ReconciliationResult :=
  let commissions := db.filter (commissionInRange organizationId startDate endDate)
  let totalCommissions := sumAmounts commissions
  let totalPaid := sumAmounts
    (commissions.filter (fun e => e.status == LedgerEntryStatus.PAID))
  let totalPending := sumAmounts
    (commissions.filter (fun e =>
      e.status == LedgerEntryStatus.CLEARED || e.status == LedgerEntryStatus.RESERVED))
  let discrepancyAmount := totalCommissions - (totalPaid + totalPending)
  if discrepancyAmount = 0 then
    { totalCommissions := totalCommissions
      totalPaid := totalPaid
      totalPending := totalPending
      reconciliationStatus := ReconciliationStatus.BALANCED }
  else
    { totalCommissions := totalCommissions
      totalPaid := totalPaid
      totalPending := totalPending
      reconciliationStatus := ReconciliationStatus.DISCREPANCY
      discrepancyAmount := some discrepancyAmount }

/-- Modelled from the spec, for comparison with reconcileCommissions: the
commission total of the range with CANCELLED entries excluded, following
the sentence that totalCommissions sums all COMMISSION entries in range
excluding CANCELLED. -/
def specTotalCommissionsExcludingCancelled (db : List LedgerEntry)
    (organizationId : String) (startDate endDate : Int) : ℚ :=
  sumAmounts ((db.filter (commissionInRange organizationId startDate endDate)).filter
    (fun e => e.status != LedgerEntryStatus.CANCELLED))

lemma find?_eq_some_unique {α : Type _} {p : α → Bool} {l : List α} {c : α}
    (hc : c ∈ l) (hpc : p c = true)
    (huniq : ∀ x ∈ l, p x = true → x = c) : l.find? p = some c := by
  induction l with
  | nil => cases hc
  | cons a t ih =>
    by_cases ha : p a = true
    · have hac : a = c := huniq a (List.mem_cons_self a t) ha
      rw [List.find?_cons_of_pos _ ha, hac]
    · have hne : a ≠ c := fun h => ha (h ▸ hpc)
      have hct : c ∈ t := by
        rcases List.mem_cons.mp hc with h | h
        · exact absurd h.symm hne
        · exact h
      rw [List.find?_cons_of_neg _ ha]
      exact ih hct (fun x hx hpx => huniq x (List.mem_cons_of_mem a hx) hpx)

lemma lookup_eq_none_of_not_mem_keys {β : Type _} {a : String}
    {l : List (String × β)} (h : a ∉ l.map Prod.fst) : l.lookup a = none := by
  induction l with
  | nil => rfl
  | cons p t ih =>
    have h1 : a ≠ p.1 := by
      intro hh
      exact h (by simp [hh])
    have h2 : a ∉ t.map Prod.fst := fun hh => h (by simp [hh])
    simp [List.lookup, beq_eq_false_iff_ne.mpr h1, ih h2]

lemma lookup_mem {β : Type _} {a : String} {b : β} {l : List (String × β)}
    (h : l.lookup a = some b) : (a, b) ∈ l := by
  induction l with
  | nil => cases h
  | cons p t ih =>
    by_cases hk : a == p.1
    · have hab : a = p.1 := by simpa using hk
      have : some p.2 = some b := by simpa [List.lookup, hk] using h
      have hb : p.2 = b := by injection this
      refine List.mem_cons.mpr (Or.inl ?_)
      rw [hab, ← hb]
    · have : t.lookup a = some b := by
        simpa [List.lookup, hk] using h
      exact List.mem_cons_of_mem p (ih this)

lemma updateById_map_eq (db : List LedgerEntry)
    (upds : List (String × (LedgerEntry → LedgerEntry)))
    {β : Type _} (proj : LedgerEntry → β)
    (h : ∀ q ∈ upds, ∀ e, proj (q.2 e) = proj e) :
    (updateById db upds).map proj = db.map proj := by
  unfold updateById
  rw [List.map_map]
  apply List.map_congr_left
  intro e _
  simp only [Function.comp]
  cases hl : upds.lookup e.id with
  | none => rfl
  | some f => exact h (e.id, f) (lookup_mem hl) e

lemma sumAmounts_eq_foldl_general (l : List LedgerEntry) (s : ℚ) :
    l.foldl (fun sum e => sum + e.amount) s = s + sumAmounts l := by
  induction l generalizing s with
  | nil => simp [sumAmounts]
  | cons a t ih =>
    show t.foldl _ (s + a.amount) = _
    rw [ih (s + a.amount)]
    have : sumAmounts (a :: t) = a.amount + sumAmounts t := by
      show t.foldl _ (0 + a.amount) = _
      rw [ih (0 + a.amount)]
      ring
    rw [this]
    ring

lemma sumAmounts_cons (a : LedgerEntry) (t : List LedgerEntry) :
    sumAmounts (a :: t) = a.amount + sumAmounts t := by
  show t.foldl _ (0 + a.amount) = _
  rw [sumAmounts_eq_foldl_general]
  ring

lemma sumAmounts_split_no_cancelled (l : List LedgerEntry)
    (h : ∀ e ∈ l, e.status ≠ LedgerEntryStatus.CANCELLED) :
    sumAmounts l =
      sumAmounts (l.filter (fun e => e.status == LedgerEntryStatus.PAID))
        + sumAmounts (l.filter (fun e =>
            e.status == LedgerEntryStatus.CLEARED
              || e.status == LedgerEntryStatus.RESERVED)) := by
  induction l with
  | nil => simp [sumAmounts]
  | cons a t ih =>
    have ht : ∀ e ∈ t, e.status ≠ LedgerEntryStatus.CANCELLED :=
      fun e he => h e (List.mem_cons_of_mem a he)
    have ha : a.status ≠ LedgerEntryStatus.CANCELLED := h a (List.mem_cons_self a t)
    have hrec := ih ht
    cases hst : a.status with
    | CANCELLED => exact absurd hst ha
    | PAID =>
      have h1 : (a :: t).filter (fun e => e.status == LedgerEntryStatus.PAID)
          = a :: t.filter (fun e => e.status == LedgerEntryStatus.PAID) := by
        have : (a.status == LedgerEntryStatus.PAID) = true := by
          rw [hst]
          decide
        simp [List.filter_cons, this]
      have h2 : (a :: t).filter (fun e =>
            e.status == LedgerEntryStatus.CLEARED
              || e.status == LedgerEntryStatus.RESERVED)
          = t.filter (fun e =>
            e.status == LedgerEntryStatus.CLEARED
              || e.status == LedgerEntryStatus.RESERVED) := by
        have : (a.status == LedgerEntryStatus.CLEARED
            || a.status == LedgerEntryStatus.RESERVED) = false := by
          rw [hst]
          decide
        simp [List.filter_cons, this]
      rw [sumAmounts_cons, h1, h2, sumAmounts_cons, hrec]
      ring
    | CLEARED =>
      have h1 : (a :: t).filter (fun e => e.status == LedgerEntryStatus.PAID)
          = t.filter (fun e => e.status == LedgerEntryStatus.PAID) := by
        have : (a.status == LedgerEntryStatus.PAID) = false := by
          rw [hst]
          decide
        simp [List.filter_cons, this]
      have h2 : (a :: t).filter (fun e =>
            e.status == LedgerEntryStatus.CLEARED
              || e.status == LedgerEntryStatus.RESERVED)
          = a :: t.filter (fun e =>
            e.status == LedgerEntryStatus.CLEARED
              || e.status == LedgerEntryStatus.RESERVED) := by
        have : (a.status == LedgerEntryStatus.CLEARED
            || a.status == LedgerEntryStatus.RESERVED) = true := by
          rw [hst]
          decide
        simp [List.filter_cons, this]
      rw [sumAmounts_cons, h1, h2, sumAmounts_cons, hrec]
      ring
    | RESERVED =>
      have h1 : (a :: t).filter (fun e => e.status == LedgerEntryStatus.PAID)
          = t.filter (fun e => e.status == LedgerEntryStatus.PAID) := by
        have : (a.status == LedgerEntryStatus.PAID) = false := by
          rw [hst]
          decide
        simp [List.filter_cons, this]
      have h2 : (a :: t).filter (fun e =>
            e.status == LedgerEntryStatus.CLEARED
              || e.status == LedgerEntryStatus.RESERVED)
          = a :: t.filter (fun e =>
            e.status == LedgerEntryStatus.CLEARED
              || e.status == LedgerEntryStatus.RESERVED) := by
        have : (a.status == LedgerEntryStatus.CLEARED
            || a.status == LedgerEntryStatus.RESERVED) = true := by
          rw [hst]
          decide
        simp [List.filter_cons, this]
      rw [sumAmounts_cons, h1, h2, sumAmounts_cons, hrec]
      ring

/-! Concrete fixtures used by the scenario evaluations below. -/

def orderMain : Order :=
  { id := "order1", organizationId := "org1", currency := "USD" }

def itemSubtotal100 : OrderItemInput :=
  { id := "item100", skuId := "sku1", subtotal := 100, order := orderMain,
    productId := "prod1" }

def itemSubtotal10 : OrderItemInput :=
  { id := "item10", skuId := "sku1", subtotal := 10, order := orderMain,
    productId := "prod1" }

def ruleScenarioA : CommissionRule :=
  { id := "ruleA", organizationId := "org1", type := CommissionRuleType.DEFAULT,
    creatorPercent := 10, platformFeePercent := 5, isActive := true,
    startDate := 0, endDate := 100 }

def ruleScenarioB : CommissionRule :=
  { id := "ruleB", organizationId := "org1", type := CommissionRuleType.DEFAULT,
    creatorPercent := 60, platformFeePercent := 50, isActive := true,
    startDate := 0, endDate := 100 }

def ruleFullPlatform : CommissionRule :=
  { id := "ruleF", organizationId := "org1", type := CommissionRuleType.DEFAULT,
    creatorPercent := 10, platformFeePercent := 100, isActive := true,
    startDate := 0, endDate := 100 }

def ruleMinFloor : CommissionRule :=
  { id := "ruleM", organizationId := "org1", type := CommissionRuleType.DEFAULT,
    creatorPercent := 60, platformFeePercent := 50, minCommission := some 8,
    isActive := true, startDate := 0, endDate := 100 }

/-- Claim C1, counterexample: with a DEFAULT rule of platformFeePercent 100
and subtotal 100, the platform fee (100) plus payment fee (2.90) exceed the
subtotal, the adjusted creator commission is floored at 0, and the returned
amounts add up to 102.90, not 100: the four-way equality fails after
clamping on this processed order item. -/
theorem C1_counterexample :
    (calculateCommission [ruleFullPlatform] itemSubtotal100 (29/1000) none 50).map
        (fun r => (r.platformFee + r.creatorCommission + r.paymentFee + r.sellerTake,
          r.subtotal))
      = .ok (1029/10, 100)
    ∧ (1029/10 : ℚ) ≠ 100 := by
  constructor
  · norm_num [calculateCommission, findApplicableCommissionRule, campaignRuleMatches,
      skuRuleMatches, productRuleMatches, defaultRuleMatches, ruleWindowMatches,
      computeSplit, platformFeeOf, clampedCommissionOf, paymentFeeOf,
      naiveSellerTakeOf, adjustedCommissionOf, List.find?,
      ruleFullPlatform, itemSubtotal100, orderMain, Except.map]
  · norm_num

/-- Claim C1, amended: before the negative-seller-take clamp the four
amounts always add up to the subtotal exactly; after clamping the equality
holds whenever platformFee plus paymentFee does not exceed the subtotal
(it can fail only when the adjusted creator commission would be negative
and is floored at 0). -/
theorem C1_amended :
    (∀ (rule : CommissionRule) (subtotal pfp : ℚ),
        platformFeeOf rule subtotal + clampedCommissionOf rule subtotal
          + paymentFeeOf subtotal pfp + naiveSellerTakeOf rule subtotal pfp = subtotal)
    ∧ (∀ (rules : List CommissionRule) (orderItem : OrderItemInput) (pfp : ℚ)
        (campaignId : Option String) (now : Int) (r : CommissionCalculation),
        calculateCommission rules orderItem pfp campaignId now = .ok r →
        r.platformFee + r.paymentFee ≤ r.subtotal →
        r.platformFee + r.creatorCommission + r.paymentFee + r.sellerTake = r.subtotal) := by
  constructor
  · intro rule subtotal pfp
    unfold naiveSellerTakeOf
    ring
  · intro rules orderItem pfp campaignId now r hcalc hle
    unfold calculateCommission at hcalc
    cases hfind : findApplicableCommissionRule rules orderItem campaignId now with
    | error e =>
      rw [hfind] at hcalc
      simp [Except.map] at hcalc
    | ok rule =>
      rw [hfind] at hcalc
      simp only [Except.map, Except.ok.injEq] at hcalc
      subst hcalc
      simp only [computeSplit] at hle ⊢
      by_cases hneg : naiveSellerTakeOf rule orderItem.subtotal pfp < 0
      · rw [if_pos hneg, if_pos hneg]
        unfold adjustedCommissionOf
        have ha : ¬ (orderItem.subtotal - platformFeeOf rule orderItem.subtotal
            - paymentFeeOf orderItem.subtotal pfp < 0) := by
          intro hlt
          have := hle
          simp only [if_pos hneg] at this
          linarith
        rw [if_neg ha]
        ring
      · rw [if_neg hneg, if_neg hneg]
        unfold naiveSellerTakeOf
        ring

/-- Claim C1, witness: the amended after-clamp equality instantiated at
scenario A (subtotal 100, platform 5 percent, creator 10 percent). -/
theorem C1_witness :
    ({ orderItemId := "item100", subtotal := 100, platformFee := 5,
       creatorCommission := 10, paymentFee := 29/10, sellerTake := 821/10,
       currency := "USD", appliedRuleId := "ruleA",
       appliedRuleType := CommissionRuleType.DEFAULT } : CommissionCalculation).platformFee
      + ({ orderItemId := "item100", subtotal := 100, platformFee := 5,
           creatorCommission := 10, paymentFee := 29/10, sellerTake := 821/10,
           currency := "USD", appliedRuleId := "ruleA",
           appliedRuleType := CommissionRuleType.DEFAULT } : CommissionCalculation).creatorCommission
      + ({ orderItemId := "item100", subtotal := 100, platformFee := 5,
           creatorCommission := 10, paymentFee := 29/10, sellerTake := 821/10,
           currency := "USD", appliedRuleId := "ruleA",
           appliedRuleType := CommissionRuleType.DEFAULT } : CommissionCalculation).paymentFee
      + ({ orderItemId := "item100", subtotal := 100, platformFee := 5,
           creatorCommission := 10, paymentFee := 29/10, sellerTake := 821/10,
           currency := "USD", appliedRuleId := "ruleA",
           appliedRuleType := CommissionRuleType.DEFAULT } : CommissionCalculation).sellerTake
      = ({ orderItemId := "item100", subtotal := 100, platformFee := 5,
           creatorCommission := 10, paymentFee := 29/10, sellerTake := 821/10,
           currency := "USD", appliedRuleId := "ruleA",
           appliedRuleType := CommissionRuleType.DEFAULT } : CommissionCalculation).subtotal :=
  C1_amended.2 [ruleScenarioA] itemSubtotal100 (29/1000) none 50 _
    (by norm_num [calculateCommission, findApplicableCommissionRule, campaignRuleMatches,
      skuRuleMatches, productRuleMatches, defaultRuleMatches, ruleWindowMatches,
      computeSplit, platformFeeOf, clampedCommissionOf, paymentFeeOf,
      naiveSellerTakeOf, adjustedCommissionOf, List.find?,
      ruleScenarioA, itemSubtotal100, orderMain, Except.map])
    (by norm_num)

/-- Claim C5: whenever the naively computed seller take is negative, the
calculation recomputes creatorCommission as max 0 of subtotal minus
platformFee minus paymentFee and sellerTake as max 0 of the remainder,
with no error raised (a found rule always yields an ok result); scenario B
(subtotal 10, platform 50, creator 60) yields commission 4.71 and seller
take 0, and scenario A (subtotal 100, platform 5, creator 10) yields the
unclamped 5 / 10 / 2.90 / 82.10. -/
theorem C5_theorem :
    (∀ (rule : CommissionRule) (orderItem : OrderItemInput) (pfp : ℚ),
        naiveSellerTakeOf rule orderItem.subtotal pfp < 0 →
          (computeSplit rule orderItem pfp).creatorCommission
              = max 0 (orderItem.subtotal - platformFeeOf rule orderItem.subtotal
                  - paymentFeeOf orderItem.subtotal pfp)
            ∧ (computeSplit rule orderItem pfp).sellerTake
              = max 0 (orderItem.subtotal - platformFeeOf rule orderItem.subtotal
                  - (computeSplit rule orderItem pfp).creatorCommission
                  - paymentFeeOf orderItem.subtotal pfp))
    ∧ (∀ (rules : List CommissionRule) (orderItem : OrderItemInput) (pfp : ℚ)
        (campaignId : Option String) (now : Int) (rule : CommissionRule),
        findApplicableCommissionRule rules orderItem campaignId now = .ok rule →
          calculateCommission rules orderItem pfp campaignId now
            = .ok (computeSplit rule orderItem pfp))
    ∧ ((calculateCommission [ruleScenarioB] itemSubtotal10 (29/1000) none 50).map
          (fun r => (r.platformFee, r.creatorCommission, r.paymentFee, r.sellerTake))
        = .ok (5, 471/100, 29/100, 0))
    ∧ ((calculateCommission [ruleScenarioA] itemSubtotal100 (29/1000) none 50).map
          (fun r => (r.platformFee, r.creatorCommission, r.paymentFee, r.sellerTake))
        = .ok (5, 10, 29/10, 821/10)) := by
  refine ⟨?_, ?_, ?_, ?_⟩
  · intro rule orderItem pfp hneg
    constructor
    · simp only [computeSplit, if_pos hneg]
      unfold adjustedCommissionOf
      by_cases ha : orderItem.subtotal - platformFeeOf rule orderItem.subtotal
          - paymentFeeOf orderItem.subtotal pfp < 0
      · rw [if_pos ha, max_eq_left (le_of_lt ha)]
      · rw [if_neg ha, max_eq_right (not_lt.mp ha)]
    · simp only [computeSplit, if_pos hneg]
      unfold adjustedCommissionOf
      by_cases ha : orderItem.subtotal - platformFeeOf rule orderItem.subtotal
          - paymentFeeOf orderItem.subtotal pfp < 0
      · rw [if_pos ha]
        rw [max_eq_left]
        linarith
      · rw [if_neg ha]
        rw [max_eq_left]
        linarith
  · intro rules orderItem pfp campaignId now rule hfind
    unfold calculateCommission
    rw [hfind]
    rfl
  · norm_num [calculateCommission, findApplicableCommissionRule, campaignRuleMatches,
      skuRuleMatches, productRuleMatches, defaultRuleMatches, ruleWindowMatches,
      computeSplit, platformFeeOf, clampedCommissionOf, paymentFeeOf,
      naiveSellerTakeOf, adjustedCommissionOf, List.find?,
      ruleScenarioB, itemSubtotal10, orderMain, Except.map]
  · norm_num [calculateCommission, findApplicableCommissionRule, campaignRuleMatches,
      skuRuleMatches, productRuleMatches, defaultRuleMatches, ruleWindowMatches,
      computeSplit, platformFeeOf, clampedCommissionOf, paymentFeeOf,
      naiveSellerTakeOf, adjustedCommissionOf, List.find?,
      ruleScenarioA, itemSubtotal100, orderMain, Except.map]

/-- Claim C5, witness: the clamp description instantiated at scenario B,
where the naive seller take is minus 1.29. -/
theorem C5_witness :
    (computeSplit ruleScenarioB itemSubtotal10 (29/1000)).creatorCommission
        = max 0 (itemSubtotal10.subtotal - platformFeeOf ruleScenarioB itemSubtotal10.subtotal
            - paymentFeeOf itemSubtotal10.subtotal (29/1000))
      ∧ (computeSplit ruleScenarioB itemSubtotal10 (29/1000)).sellerTake
        = max 0 (itemSubtotal10.subtotal - platformFeeOf ruleScenarioB itemSubtotal10.subtotal
            - (computeSplit ruleScenarioB itemSubtotal10 (29/1000)).creatorCommission
            - paymentFeeOf itemSubtotal10.subtotal (29/1000)) :=
  C5_theorem.1 ruleScenarioB itemSubtotal10 (29/1000)
    (by norm_num [naiveSellerTakeOf, platformFeeOf, clampedCommissionOf, paymentFeeOf,
      ruleScenarioB, itemSubtotal10])

/-- Claim C10: the minCommission floor is not re-applied after the
negative-seller-take adjustment. With minCommission 8 on a rule of
platform 50 percent and creator 60 percent and a subtotal of 10, the
min-clamped commission 8 drives the seller take negative, and the returned
creator commission 4.71 lies strictly below the floor of 8. -/
theorem C10_theorem :
    ruleMinFloor.minCommission = some 8
    ∧ (calculateCommission [ruleMinFloor] itemSubtotal10 (29/1000) none 50).map
        (fun r => r.creatorCommission) = .ok (471/100)
    ∧ (471/100 : ℚ) < 8 := by
  refine ⟨rfl, ?_, by norm_num⟩
  norm_num [calculateCommission, findApplicableCommissionRule, campaignRuleMatches,
    skuRuleMatches, productRuleMatches, defaultRuleMatches, ruleWindowMatches,
    computeSplit, platformFeeOf, clampedCommissionOf, paymentFeeOf,
    naiveSellerTakeOf, adjustedCommissionOf, List.find?,
    ruleMinFloor, itemSubtotal10, orderMain, Except.map]

def ruleCampaign : CommissionRule :=
  { id := "ruleC", organizationId := "org1", type := CommissionRuleType.CAMPAIGN,
    campaignId := some "camp1", creatorPercent := 20, platformFeePercent := 5,
    isActive := true, startDate := 0, endDate := 100 }

def ruleSku : CommissionRule :=
  { id := "ruleS", organizationId := "org1", type := CommissionRuleType.SKU,
    skuId := some "sku1", creatorPercent := 15, platformFeePercent := 5,
    isActive := true, startDate := 0, endDate := 100 }

def ruleInactive : CommissionRule :=
  { id := "ruleI", organizationId := "org1", type := CommissionRuleType.DEFAULT,
    creatorPercent := 10, platformFeePercent := 5, isActive := false,
    startDate := 0, endDate := 100 }

/-- Claim C3: rule resolution is priority-respecting with first match wins.
When a matching active CAMPAIGN rule is the unique campaign-tier match and
an active DEFAULT rule also exists, the resolver returns the CAMPAIGN
rule; when an active SKU rule is the unique SKU-tier match, a DEFAULT rule
also exists and no campaignId is supplied, it returns the SKU rule. -/
theorem C3_theorem :
    (∀ (rules : List CommissionRule) (orderItem : OrderItemInput) (cid : String)
        (now : Int) (c d : CommissionRule),
        c ∈ rules →
        campaignRuleMatches orderItem.order.organizationId cid now c = true →
        d ∈ rules →
        defaultRuleMatches orderItem.order.organizationId now d = true →
        (∀ x ∈ rules,
          campaignRuleMatches orderItem.order.organizationId cid now x = true → x = c) →
        findApplicableCommissionRule rules orderItem (some cid) now = .ok c)
    ∧ (∀ (rules : List CommissionRule) (orderItem : OrderItemInput) (now : Int)
        (s d : CommissionRule),
        s ∈ rules →
        skuRuleMatches orderItem.order.organizationId orderItem.skuId now s = true →
        d ∈ rules →
        defaultRuleMatches orderItem.order.organizationId now d = true →
        (∀ x ∈ rules,
          skuRuleMatches orderItem.order.organizationId orderItem.skuId now x = true → x = s) →
        findApplicableCommissionRule rules orderItem none now = .ok s) := by
  constructor
  · intro rules orderItem cid now c d hc hpc hd hpd huniq
    simp only [findApplicableCommissionRule]
    rw [find?_eq_some_unique hc hpc huniq]
  · intro rules orderItem now s d hs hps hd hpd huniq
    simp only [findApplicableCommissionRule]
    rw [find?_eq_some_unique hs hps huniq]

/-- Claim C3, witness: with a DEFAULT rule and a CAMPAIGN rule both
active, the resolver picks the CAMPAIGN rule when camp1 is supplied; with
a DEFAULT rule and an SKU rule both active and no campaignId, it picks the
SKU rule. -/
theorem C3_witness :
    findApplicableCommissionRule [ruleScenarioA, ruleCampaign] itemSubtotal100
        (some "camp1") 50 = .ok ruleCampaign
    ∧ findApplicableCommissionRule [ruleScenarioA, ruleSku] itemSubtotal100
        none 50 = .ok ruleSku := by
  constructor
  · apply C3_theorem.1 [ruleScenarioA, ruleCampaign] itemSubtotal100 "camp1" 50
      ruleCampaign ruleScenarioA
    · simp
    · decide
    · simp
    · decide
    · intro x hx hpx
      fin_cases hx
      · exact absurd hpx (by decide)
      · rfl
  · apply C3_theorem.2 [ruleScenarioA, ruleSku] itemSubtotal100 50 ruleSku ruleScenarioA
    · simp
    · decide
    · simp
    · decide
    · intro x hx hpx
      fin_cases hx
      · exact absurd hpx (by decide)
      · rfl

/-- Claim C8: when no rule of the table matches at any tier for the order
item (campaign tier considered only when a campaignId is supplied), the
resolver fails with the NotFound condition COMMISSION_RULE_NOT_FOUND, and
calculateCommission rethrows that same error, so the order item yields no
split at all. -/
theorem C8_theorem (rules : List CommissionRule) (orderItem : OrderItemInput)
    (campaignId : Option String) (now : Int) (pfp : ℚ)
    (h : ∀ r ∈ rules,
      (∀ cid, campaignId = some cid →
        campaignRuleMatches orderItem.order.organizationId cid now r = false)
      ∧ skuRuleMatches orderItem.order.organizationId orderItem.skuId now r = false
      ∧ productRuleMatches orderItem.order.organizationId orderItem.productId now r = false
      ∧ defaultRuleMatches orderItem.order.organizationId now r = false) :
    findApplicableCommissionRule rules orderItem campaignId now
        = .error (.notFound "No applicable commission rule found"
            "COMMISSION_RULE_NOT_FOUND")
    ∧ calculateCommission rules orderItem pfp campaignId now
        = .error (.notFound "No applicable commission rule found"
            "COMMISSION_RULE_NOT_FOUND") := by
  have hsku : rules.find?
      (skuRuleMatches orderItem.order.organizationId orderItem.skuId now) = none :=
    List.find?_eq_none.mpr (fun x hx => by simp [(h x hx).2.1])
  have hprod : rules.find?
      (productRuleMatches orderItem.order.organizationId orderItem.productId now) = none :=
    List.find?_eq_none.mpr (fun x hx => by simp [(h x hx).2.2.1])
  have hdef : rules.find?
      (defaultRuleMatches orderItem.order.organizationId now) = none :=
    List.find?_eq_none.mpr (fun x hx => by simp [(h x hx).2.2.2])
  have hfind : findApplicableCommissionRule rules orderItem campaignId now
      = .error (.notFound "No applicable commission rule found"
          "COMMISSION_RULE_NOT_FOUND") := by
    cases campaignId with
    | none =>
      simp only [findApplicableCommissionRule]
      rw [hsku, hprod, hdef]
    | some cid =>
      have hcamp : rules.find?
          (campaignRuleMatches orderItem.order.organizationId cid now) = none :=
        List.find?_eq_none.mpr (fun x hx => by simp [(h x hx).1 cid rfl])
      simp only [findApplicableCommissionRule]
      rw [hcamp, hsku, hprod, hdef]
  refine ⟨hfind, ?_⟩
  unfold calculateCommission
  rw [hfind]
  rfl

/-- Claim C8, witness: a table holding only an inactive DEFAULT rule
matches no tier, so resolution and calculation both fail with the
NotFound condition. -/
theorem C8_witness :
    findApplicableCommissionRule [ruleInactive] itemSubtotal100 (some "camp1") 50
        = .error (.notFound "No applicable commission rule found"
            "COMMISSION_RULE_NOT_FOUND")
    ∧ calculateCommission [ruleInactive] itemSubtotal100 (29/1000) (some "camp1") 50
        = .error (.notFound "No applicable commission rule found"
            "COMMISSION_RULE_NOT_FOUND") := by
  apply C8_theorem [ruleInactive] itemSubtotal100 (some "camp1") 50 (29/1000)
  intro r hr
  fin_cases hr
  refine ⟨?_, by decide, by decide, by decide⟩
  intro cid hcid
  cases hcid
  decide

/-- Claim C4: a successful createLedgerEntries call produces exactly four
entries: SALE with the subtotal, PLATFORM_FEE with the platform fee,
COMMISSION with the creator commission and the creatorId in its metadata,
PAYMENT_FEE with the payment fee; all four start RESERVED, belong to the
order and order item of the calculation, and are appended to the table in
one single step, so no table state with a proper subset of them exists. -/
theorem C4_theorem (clock : Nat → Int) (freshId : Nat → String)
    (db : List LedgerEntry) (calculation : CommissionCalculation) (order : Order)
    (creatorId : String) :
    (createLedgerEntries clock freshId db calculation order creatorId).2.length = 4
    ∧ (createLedgerEntries clock freshId db calculation order creatorId).1
        = db ++ (createLedgerEntries clock freshId db calculation order creatorId).2
    ∧ ((createLedgerEntries clock freshId db calculation order creatorId).2.map
          fun e => (e.entryType, e.amount))
        = [(LedgerEntryType.SALE, calculation.subtotal),
           (LedgerEntryType.PLATFORM_FEE, calculation.platformFee),
           (LedgerEntryType.COMMISSION, calculation.creatorCommission),
           (LedgerEntryType.PAYMENT_FEE, calculation.paymentFee)]
    ∧ ((createLedgerEntries clock freshId db calculation order creatorId).2.map
          fun e => (e.status, e.orderId, e.organizationId, e.orderItemId))
        = List.replicate 4 (LedgerEntryStatus.RESERVED, order.id,
            order.organizationId, some calculation.orderItemId)
    ∧ ((createLedgerEntries clock freshId db calculation order creatorId).2.map
          fun e => e.metadata.creatorId)
        = [none, none, some creatorId, none] :=
  ⟨rfl, rfl, rfl, rfl, rfl⟩

def entryCancelledCommission : LedgerEntry :=
  { id := "L1", organizationId := "org1", orderId := "order1",
    entryType := LedgerEntryType.COMMISSION, amount := 5, currency := "USD",
    status := LedgerEntryStatus.CANCELLED, createdAt := 10 }

def entryPaidCommission : LedgerEntry :=
  { id := "L2", organizationId := "org1", orderId := "order1",
    entryType := LedgerEntryType.COMMISSION, amount := 7, currency := "USD",
    status := LedgerEntryStatus.PAID, createdAt := 20 }

def entryClearedCommission : LedgerEntry :=
  { id := "L3", organizationId := "org1", orderId := "order1",
    entryType := LedgerEntryType.COMMISSION, amount := 3, currency := "USD",
    status := LedgerEntryStatus.CLEARED, createdAt := 30 }

lemma sumAmounts_filter_not_add (p : LedgerEntry → Bool) (l : List LedgerEntry) :
    sumAmounts (l.filter fun e => !(p e)) + sumAmounts (l.filter p) = sumAmounts l := by
  induction l with
  | nil => simp [sumAmounts]
  | cons a t ih =>
    cases hpa : p a with
    | true =>
      have h1 : (a :: t).filter (fun e => !(p e)) = t.filter (fun e => !(p e)) := by
        simp [List.filter_cons, hpa]
      have h2 : (a :: t).filter p = a :: t.filter p := by
        simp [List.filter_cons, hpa]
      rw [h1, h2, sumAmounts_cons, sumAmounts_cons, ← ih]
      ring
    | false =>
      have h1 : (a :: t).filter (fun e => !(p e)) = a :: t.filter (fun e => !(p e)) := by
        simp [List.filter_cons, hpa]
      have h2 : (a :: t).filter p = t.filter p := by
        simp [List.filter_cons, hpa]
      rw [h1, h2, sumAmounts_cons, sumAmounts_cons, ← ih]
      ring

/-- Claim C6, counterexample: a single CANCELLED COMMISSION entry of
amount 5 inside the range is counted by reconcileCommissions, whose
totalCommissions is 5 while the sum excluding CANCELLED entries is 0; the
claimed description of totalCommissions does not hold, and the period is
reported as DISCREPANCY. -/
theorem C6_counterexample :
    reconcileCommissions [entryCancelledCommission] "org1" 0 100
        = { totalCommissions := 5, totalPaid := 0, totalPending := 0,
            reconciliationStatus := ReconciliationStatus.DISCREPANCY,
            discrepancyAmount := some 5 }
    ∧ specTotalCommissionsExcludingCancelled [entryCancelledCommission] "org1" 0 100 = 0
    ∧ (5 : ℚ) ≠ 0 := by
  have h1 : (LedgerEntryStatus.CANCELLED == LedgerEntryStatus.PAID) = false := by decide
  have h2 : (LedgerEntryStatus.CANCELLED == LedgerEntryStatus.CLEARED) = false := by decide
  have h3 : (LedgerEntryStatus.CANCELLED == LedgerEntryStatus.RESERVED) = false := by decide
  have h4 : (LedgerEntryStatus.CANCELLED != LedgerEntryStatus.CANCELLED) = false := by decide
  refine ⟨?_, ?_, by norm_num⟩
  · norm_num [reconcileCommissions, commissionInRange, sumAmounts,
      entryCancelledCommission, List.filter, h1, h2, h3]
  · norm_num [specTotalCommissionsExcludingCancelled, commissionInRange, sumAmounts,
      entryCancelledCommission, List.filter, h4]

/-- Claim C6, amended: totalCommissions sums every COMMISSION entry of the
organization in range, the CANCELLED ones included (it equals the
CANCELLED-excluding sum plus the CANCELLED sum); totalPaid sums the PAID
subset and totalPending the RESERVED-or-CLEARED subset; the status is
BALANCED exactly when totalCommissions equals totalPaid plus totalPending;
in particular a period without CANCELLED entries is always BALANCED. -/
theorem C6_amended (db : List LedgerEntry) (organizationId : String)
    (startDate endDate : Int) :
    (reconcileCommissions db organizationId startDate endDate).totalCommissions
        = specTotalCommissionsExcludingCancelled db organizationId startDate endDate
          + sumAmounts
              ((db.filter (commissionInRange organizationId startDate endDate)).filter
                (fun e => e.status == LedgerEntryStatus.CANCELLED))
    ∧ (reconcileCommissions db organizationId startDate endDate).totalPaid
        = sumAmounts
            ((db.filter (commissionInRange organizationId startDate endDate)).filter
              (fun e => e.status == LedgerEntryStatus.PAID))
    ∧ (reconcileCommissions db organizationId startDate endDate).totalPending
        = sumAmounts
            ((db.filter (commissionInRange organizationId startDate endDate)).filter
              (fun e => e.status == LedgerEntryStatus.CLEARED
                || e.status == LedgerEntryStatus.RESERVED))
    ∧ ((reconcileCommissions db organizationId startDate endDate).reconciliationStatus
          = ReconciliationStatus.BALANCED
        ↔ (reconcileCommissions db organizationId startDate endDate).totalCommissions
            = (reconcileCommissions db organizationId startDate endDate).totalPaid
              + (reconcileCommissions db organizationId startDate endDate).totalPending)
    ∧ ((∀ e ∈ db.filter (commissionInRange organizationId startDate endDate),
          e.status ≠ LedgerEntryStatus.CANCELLED) →
        (reconcileCommissions db organizationId startDate endDate).reconciliationStatus
          = ReconciliationStatus.BALANCED) := by
  have htot : (reconcileCommissions db organizationId startDate endDate).totalCommissions
      = sumAmounts (db.filter (commissionInRange organizationId startDate endDate)) := by
    simp only [reconcileCommissions,
      apply_ite ReconciliationResult.totalCommissions, ite_self]
  have hpaid : (reconcileCommissions db organizationId startDate endDate).totalPaid
      = sumAmounts
          ((db.filter (commissionInRange organizationId startDate endDate)).filter
            (fun e => e.status == LedgerEntryStatus.PAID)) := by
    simp only [reconcileCommissions,
      apply_ite ReconciliationResult.totalPaid, ite_self]
  have hpend : (reconcileCommissions db organizationId startDate endDate).totalPending
      = sumAmounts
          ((db.filter (commissionInRange organizationId startDate endDate)).filter
            (fun e => e.status == LedgerEntryStatus.CLEARED
              || e.status == LedgerEntryStatus.RESERVED)) := by
    simp only [reconcileCommissions,
      apply_ite ReconciliationResult.totalPending, ite_self]
  have hstat : (reconcileCommissions db organizationId startDate endDate).reconciliationStatus
      = (if sumAmounts (db.filter (commissionInRange organizationId startDate endDate))
            - (sumAmounts
                ((db.filter (commissionInRange organizationId startDate endDate)).filter
                  (fun e => e.status == LedgerEntryStatus.PAID))
              + sumAmounts
                ((db.filter (commissionInRange organizationId startDate endDate)).filter
                  (fun e => e.status == LedgerEntryStatus.CLEARED
                    || e.status == LedgerEntryStatus.RESERVED))) = 0 then
          ReconciliationStatus.BALANCED
        else ReconciliationStatus.DISCREPANCY) := by
    simp only [reconcileCommissions,
      apply_ite ReconciliationResult.reconciliationStatus]
  refine ⟨?_, hpaid, hpend, ?_, ?_⟩
  · rw [htot, specTotalCommissionsExcludingCancelled]
    have := sumAmounts_filter_not_add
      (fun e => e.status == LedgerEntryStatus.CANCELLED)
      (db.filter (commissionInRange organizationId startDate endDate))
    rw [← this]
    rfl
  · rw [hstat, htot, hpaid, hpend]
    by_cases hz : sumAmounts (db.filter (commissionInRange organizationId startDate endDate))
        - (sumAmounts
            ((db.filter (commissionInRange organizationId startDate endDate)).filter
              (fun e => e.status == LedgerEntryStatus.PAID))
          + sumAmounts
            ((db.filter (commissionInRange organizationId startDate endDate)).filter
              (fun e => e.status == LedgerEntryStatus.CLEARED
                || e.status == LedgerEntryStatus.RESERVED))) = 0
    · rw [if_pos hz]
      simp only [true_iff]
      linarith [hz]
    · rw [if_neg hz]
      constructor
      · intro hcontra
        exact absurd hcontra (by simp)
      · intro heq
        exact absurd (by linarith [heq] : _) hz
  · intro hnc
    rw [hstat]
    have hsplit := sumAmounts_split_no_cancelled
      (db.filter (commissionInRange organizationId startDate endDate)) hnc
    rw [if_pos (by linarith [hsplit])]

/-- Claim C6, witness: the amended BALANCED consequence instantiated on a
table holding one PAID and one CLEARED commission entry and no CANCELLED
one. -/
theorem C6_witness :
    (reconcileCommissions [entryPaidCommission, entryClearedCommission] "org1" 0 100).reconciliationStatus
      = ReconciliationStatus.BALANCED :=
  (C6_amended [entryPaidCommission, entryClearedCommission] "org1" 0 100).2.2.2.2
    (by
      intro e he
      fin_cases he <;> decide)

def entryReservedA : LedgerEntry :=
  { id := "A1", organizationId := "org1", orderId := "order1",
    entryType := LedgerEntryType.SALE, amount := 100, currency := "USD",
    status := LedgerEntryStatus.RESERVED, createdAt := 1 }

def entryReservedB : LedgerEntry :=
  { id := "B1", organizationId := "org1", orderId := "order1",
    entryType := LedgerEntryType.COMMISSION, amount := 10, currency := "USD",
    status := LedgerEntryStatus.RESERVED, createdAt := 1 }

/-- Claim C7, counterexample: clearing an order with two RESERVED entries
under a strictly increasing clock stamps them with the readings 0 and 1,
two distinct values: each update takes its own clock reading, so the
clearedAt stamps are not one single consistent timestamp derived from one
clock reading. -/
theorem C7_counterexample :
    ((clearLedgerEntries (fun i => (i : Int)) [entryReservedA, entryReservedB]
        "order1").2.map fun e => e.clearedAt)
      = [some 0, some 1]
    ∧ some (0 : Int) ≠ some 1 := by
  constructor
  · rfl
  · simp

/-- Claim C7, amended: clearLedgerEntries transitions exactly the RESERVED
entries of the order to CLEARED and returns the table unchanged with an
empty result when there are none; but each updated entry is stamped with
its own clock reading (the i-th selected entry receives reading i), one
reading per entry rather than a single shared one, and every entry that is
not a RESERVED entry of the order survives unchanged. -/
theorem C7_amended :
    (∀ (clock : Nat → Int) (db : List LedgerEntry) (orderId : String),
        (db.filter (reservedFor orderId)).isEmpty = true →
        clearLedgerEntries clock db orderId = (db, []))
    ∧ (∀ (clock : Nat → Int) (db : List LedgerEntry) (orderId : String),
        ((clearLedgerEntries clock db orderId).2.map fun e => (e.status, e.clearedAt))
          = (List.range (db.filter (reservedFor orderId)).length).map
              (fun i => (LedgerEntryStatus.CLEARED, some (clock i))))
    ∧ (∀ (clock : Nat → Int) (db : List LedgerEntry) (orderId : String),
        ((clearLedgerEntries clock db orderId).2.map fun e => e.id)
          = ((db.filter (reservedFor orderId)).map fun e => e.id))
    ∧ (∀ (clock : Nat → Int) (db : List LedgerEntry) (orderId : String),
        (db.map fun e => e.id).Nodup →
        ∀ e ∈ db, reservedFor orderId e = false →
          e ∈ (clearLedgerEntries clock db orderId).1) := by
  refine ⟨?_, ?_, ?_, ?_⟩
  · intro clock db orderId h
    unfold clearLedgerEntries
    rw [if_pos h]
  · intro clock db orderId
    by_cases hemp : (db.filter (reservedFor orderId)).isEmpty = true
    · unfold clearLedgerEntries
      rw [if_pos hemp]
      rw [List.isEmpty_iff.mp hemp]
      rfl
    · unfold clearLedgerEntries
      rw [if_neg hemp]
      show ((db.filter (reservedFor orderId)).enum.map
          fun p => clearOne (clock p.1) p.2).map (fun e => (e.status, e.clearedAt)) = _
      rw [List.map_map]
      rw [← List.enum_map_fst (db.filter (reservedFor orderId)), List.map_map]
      apply List.map_congr_left
      intro p _
      rfl
  · intro clock db orderId
    by_cases hemp : (db.filter (reservedFor orderId)).isEmpty = true
    · unfold clearLedgerEntries
      rw [if_pos hemp]
      rw [List.isEmpty_iff.mp hemp]
    · unfold clearLedgerEntries
      rw [if_neg hemp]
      show ((db.filter (reservedFor orderId)).enum.map
          fun p => clearOne (clock p.1) p.2).map (fun e => e.id) = _
      rw [List.map_map]
      conv_rhs => rw [← List.enum_map_snd (db.filter (reservedFor orderId))]
      rw [List.map_map]
      apply List.map_congr_left
      intro p _
      rfl
  · intro clock db orderId hnodup e he hres
    by_cases hemp : (db.filter (reservedFor orderId)).isEmpty = true
    · unfold clearLedgerEntries
      rw [if_pos hemp]
      exact he
    · unfold clearLedgerEntries
      rw [if_neg hemp]
      show e ∈ updateById db _
      have hkeys : ((db.filter (reservedFor orderId)).enum.map
          fun p => (p.2.id, clearOne (clock p.1))).map Prod.fst
          = (db.filter (reservedFor orderId)).map (fun x => x.id) := by
        rw [List.map_map]
        conv_rhs => rw [← List.enum_map_snd (db.filter (reservedFor orderId))]
        rw [List.map_map]
        apply List.map_congr_left
        intro p _
        rfl
      have hnotkey : e.id ∉ ((db.filter (reservedFor orderId)).enum.map
          fun p => (p.2.id, clearOne (clock p.1))).map Prod.fst := by
        rw [hkeys]
        intro hmem
        rcases List.mem_map.mp hmem with ⟨x, hx, hxid⟩
        rcases List.mem_filter.mp hx with ⟨hxdb, hxres⟩
        have hxe : x = e := List.inj_on_of_nodup_map hnodup hxdb he hxid
        rw [hxe] at hxres
        rw [hxres] at hres
        cases hres
      have hlook : (((db.filter (reservedFor orderId)).enum.map
          fun p => (p.2.id, clearOne (clock p.1))).lookup e.id) = none :=
        lookup_eq_none_of_not_mem_keys hnotkey
      refine List.mem_map.mpr ⟨e, he, ?_⟩
      rw [hlook]

/-- Claim C7, witness: the no-op branch instantiated on a table whose only
entry for the order is CANCELLED: the table is returned unchanged with an
empty updated list. -/
theorem C7_witness :
    clearLedgerEntries (fun i => (i : Int)) [entryCancelledCommission] "order1"
      = ([entryCancelledCommission], []) :=
  C7_amended.1 (fun i => (i : Int)) [entryCancelledCommission] "order1" (by decide)

/-- Claim C2, counterexample: markCommissionsAsPaid applied to a RESERVED
(not CLEARED) entry succeeds and returns it as PAID instead of failing
with a conflict, and cancelLedgerEntries moves a PAID entry to CANCELLED:
the terminal states are not protected and marking a non-CLEARED entry PAID
does not fail. -/
theorem C2_counterexample :
    ((markCommissionsAsPaid (fun _ => 7) [entryReservedA] ["A1"] "payout1").map
        (fun p => p.2.map fun e => (e.status, e.payoutId, e.paidAt)))
      = .ok [(LedgerEntryStatus.PAID, some "payout1", some 7)]
    ∧ entryReservedA.status = LedgerEntryStatus.RESERVED
    ∧ ((cancelLedgerEntries (fun _ => 7) [entryPaidCommission] "order1" "refund").1.map
        fun e => e.status)
      = [LedgerEntryStatus.CANCELLED]
    ∧ entryPaidCommission.status = LedgerEntryStatus.PAID := by
  exact ⟨rfl, rfl, rfl, rfl⟩

/-- Claim C2, amended: clearLedgerEntries updates exactly the RESERVED
entries of the order, to CLEARED; cancelLedgerEntries targets every entry
of the order whose status is not CANCELLED — a PAID entry of the order is
targeted — and sets all of them to CANCELLED; markCommissionsAsPaid
succeeds whenever every listed id exists, whatever the current status of
each entry, unconditionally setting the targets to PAID; no conflict
condition protects the PAID or CANCELLED terminal states. -/
theorem C2_amended :
    (∀ (clock : Nat → Int) (db : List LedgerEntry) (orderId : String),
        ((clearLedgerEntries clock db orderId).2.map fun e => (e.id, e.status))
          = ((db.filter (reservedFor orderId)).map
              fun e => (e.id, LedgerEntryStatus.CLEARED)))
    ∧ (∀ (orderId : String) (e : LedgerEntry), e.orderId = orderId →
        e.status = LedgerEntryStatus.PAID → activeFor orderId e = true)
    ∧ (∀ (clock : Nat → Int) (db : List LedgerEntry) (orderId reason : String),
        ((cancelLedgerEntries clock db orderId reason).2.map fun e => (e.id, e.status))
          = ((db.filter (activeFor orderId)).map
              fun e => (e.id, LedgerEntryStatus.CANCELLED)))
    ∧ (∀ (clock : Nat → Int) (db : List LedgerEntry) (commissionIds : List String)
        (payoutId : String),
        (∀ i ∈ commissionIds, ∃ e ∈ db, e.id = i) →
        ∃ db2 upd, markCommissionsAsPaid clock db commissionIds payoutId = .ok (db2, upd)
          ∧ ∀ e ∈ upd, e.status = LedgerEntryStatus.PAID) := by
  refine ⟨?_, ?_, ?_, ?_⟩
  · intro clock db orderId
    by_cases hemp : (db.filter (reservedFor orderId)).isEmpty = true
    · unfold clearLedgerEntries
      rw [if_pos hemp]
      rw [List.isEmpty_iff.mp hemp]
      rfl
    · unfold clearLedgerEntries
      rw [if_neg hemp]
      show ((db.filter (reservedFor orderId)).enum.map
          fun p => clearOne (clock p.1) p.2).map (fun e => (e.id, e.status)) = _
      rw [List.map_map]
      conv_rhs => rw [← List.enum_map_snd (db.filter (reservedFor orderId))]
      rw [List.map_map]
      apply List.map_congr_left
      intro p _
      rfl
  · intro orderId e heo hst
    simp [activeFor, heo, hst]
  · intro clock db orderId reason
    by_cases hemp : (db.filter (activeFor orderId)).isEmpty = true
    · unfold cancelLedgerEntries
      rw [if_pos hemp]
      rw [List.isEmpty_iff.mp hemp]
      rfl
    · unfold cancelLedgerEntries
      rw [if_neg hemp]
      show ((db.filter (activeFor orderId)).enum.map
          fun p => cancelOne reason (clock p.1) p.2).map (fun e => (e.id, e.status)) = _
      rw [List.map_map]
      conv_rhs => rw [← List.enum_map_snd (db.filter (activeFor orderId))]
      rw [List.map_map]
      apply List.map_congr_left
      intro p _
      rfl
  · intro clock db commissionIds payoutId hexist
    have hall : commissionIds.all (fun i => db.any (fun e => e.id == i)) = true := by
      rw [List.all_eq_true]
      intro i hi
      rcases hexist i hi with ⟨e, he, hei⟩
      rw [List.any_eq_true]
      exact ⟨e, he, beq_iff_eq.mpr hei⟩
    refine ⟨updateById db
        (commissionIds.enum.map fun p => (p.2, markPaidOne payoutId (clock p.1))),
      commissionIds.enum.filterMap (fun p =>
        (db.find? (fun e => e.id == p.2)).map (markPaidOne payoutId (clock p.1))),
      ?_, ?_⟩
    · unfold markCommissionsAsPaid
      rw [if_pos hall]
    · intro e he
      rcases List.mem_filterMap.mp he with ⟨p, _, hfp⟩
      rcases Option.map_eq_some'.mp hfp with ⟨y, _, hy⟩
      rw [← hy]
      rfl

/-- Claim C2, witness: a PAID entry of the order is selected by the cancel
where clause, discharging the hypotheses of the amended statement at a
concrete PAID commission entry. -/
theorem C2_witness : activeFor "order1" entryPaidCommission = true :=
  C2_amended.2.1 "order1" entryPaidCommission rfl rfl

/-- Claim C9: the clear, cancel and mark-paid operations never change the
amount or the currency of any ledger entry: the amount and currency
columns of the whole table are unchanged by each of the three operations
(only status, lifecycle timestamps, payout linkage and metadata mutate). -/
theorem C9_theorem :
    (∀ (clock : Nat → Int) (db : List LedgerEntry) (orderId : String),
        ((clearLedgerEntries clock db orderId).1.map fun e => (e.amount, e.currency))
          = db.map fun e => (e.amount, e.currency))
    ∧ (∀ (clock : Nat → Int) (db : List LedgerEntry) (orderId reason : String),
        ((cancelLedgerEntries clock db orderId reason).1.map
            fun e => (e.amount, e.currency))
          = db.map fun e => (e.amount, e.currency))
    ∧ (∀ (clock : Nat → Int) (db : List LedgerEntry) (commissionIds : List String)
        (payoutId : String) (db2 upd : List LedgerEntry),
        markCommissionsAsPaid clock db commissionIds payoutId = .ok (db2, upd) →
        db2.map (fun e => (e.amount, e.currency))
          = db.map fun e => (e.amount, e.currency)) := by
  refine ⟨?_, ?_, ?_⟩
  · intro clock db orderId
    by_cases hemp : (db.filter (reservedFor orderId)).isEmpty = true
    · unfold clearLedgerEntries
      rw [if_pos hemp]
    · unfold clearLedgerEntries
      rw [if_neg hemp]
      show (updateById db _).map _ = _
      apply updateById_map_eq
      intro q hq e
      rcases List.mem_map.mp hq with ⟨p, _, hpq⟩
      rw [← hpq]
      rfl
  · intro clock db orderId reason
    by_cases hemp : (db.filter (activeFor orderId)).isEmpty = true
    · unfold cancelLedgerEntries
      rw [if_pos hemp]
    · unfold cancelLedgerEntries
      rw [if_neg hemp]
      show (updateById db _).map _ = _
      apply updateById_map_eq
      intro q hq e
      rcases List.mem_map.mp hq with ⟨p, _, hpq⟩
      rw [← hpq]
      rfl
  · intro clock db commissionIds payoutId db2 upd hmk
    unfold markCommissionsAsPaid at hmk
    by_cases hall : commissionIds.all (fun i => db.any (fun e => e.id == i)) = true
    · rw [if_pos hall] at hmk
      have hdb2 : db2 = updateById db
          (commissionIds.enum.map fun p => (p.2, markPaidOne payoutId (clock p.1))) := by
        have := congrArg (fun x : Except ServiceError (List LedgerEntry × List LedgerEntry) =>
          match x with
          | .ok v => v.1
          | .error _ => []) hmk
        exact this.symm
      rw [hdb2]
      apply updateById_map_eq
      intro q hq e
      rcases List.mem_map.mp hq with ⟨p, _, hpq⟩
      rw [← hpq]
      rfl
    · rw [if_neg hall] at hmk
      cases hmk

/-- Claim C9, witness: mark-paid applied to a one-entry table, with the
frame conclusion on the amount and currency columns instantiated there. -/
theorem C9_witness :
    ([{ entryReservedA with
        status := LedgerEntryStatus.PAID
        payoutId := some "payout1"
        paidAt := some 7 }].map
      fun e => (e.amount, e.currency))
      = [entryReservedA].map fun e => (e.amount, e.currency) :=
  C9_theorem.2.2 (fun _ => 7) [entryReservedA] ["A1"] "payout1"
    [{ entryReservedA with
        status := LedgerEntryStatus.PAID
        payoutId := some "payout1"
        paidAt := some 7 }]
    [{ entryReservedA with
        status := LedgerEntryStatus.PAID
        payoutId := some "payout1"
        paidAt := some 7 }]
    rfl

end RevSplit
